import Mathlib

deriving instance DecidableEq for Except

set_option maxRecDepth 10000

/-!
Shallow embedding of the plan-limit-aware chat persistence, title assignment,
billing reconciliation and webhook signature verification logic of the
repository (app/services/chat_service.py, app/services/plan_limits.py,
app/services/billing_service.py, app/core/stripe.py, app/core/config.py).

Python strings are modelled as Lean `String`; nullable Python values as
`Option`; a raised `HTTPException` from `raise_plan_limit` as the `error`
branch of `Except`. Database rows already fetched by the service methods are
passed explicitly (the per-thread message list stands for the `chat_messages`
rows of that thread, kept in ascending `created_at`/`id` order, i.e. insertion
order).
-/

namespace Cullen

/-- Python truthiness of an optional string: `None` and the empty string are
falsy, every other string is truthy. -/
def py_truthy : Option String → Bool
  | none => false
  | some s => s ≠ ""

/-- Python `x or default` for an optional string `x`: yields `default` when
`x` is `None` or empty, otherwise the string itself. -/
def py_or (x : Option String) (default : String) : String :=
  match x with
  | none => default
  | some s => if s = "" then default else s

/-- Python regex `\s` on ASCII input: space, tab, newline, carriage return,
vertical tab and form feed. -/
def py_isspace (c : Char) : Bool :=
  c = ' ' || c = '\t' || c = '\n' || c = '\r' || c = Char.ofNat 11 || c = Char.ofNat 12

/-- Python `str.strip()` on a character list: drop whitespace from both ends. -/
def py_strip_list (l : List Char) : List Char :=
  ((l.dropWhile py_isspace).reverse.dropWhile py_isspace).reverse

/-- Python `str.strip()`. -/
def py_strip (s : String) : String :=
  String.mk (py_strip_list s.data)

/-- Python `str.lower()` on the ASCII strings this service handles. -/
def py_lower (s : String) : String :=
  String.mk (s.data.map Char.toLower)

/-- Python `str.upper()` on the ASCII strings this service handles. -/
def py_upper (s : String) : String :=
  String.mk (s.data.map Char.toUpper)

/-- Replacement of every maximal whitespace run by a single space, as the
regex substitution in the title helper does. The boolean argument records
whether the previous character was part of a whitespace run. -/
def collapse_ws : Bool → List Char → List Char
  | _, [] => []
  | prev, c :: cs =>
    if py_isspace c then
      if prev then collapse_ws true cs else ' ' :: collapse_ws true cs
    else
      c :: collapse_ws false cs

/-- Normalization used by the title rule: the regex substitution of each
whitespace run by one space, followed by a strip. -/
def normalize_ws (s : String) : String :=
  String.mk (py_strip_list (collapse_ws false s.data))

/-- Embeds `ChatService._title_from_first_user_message` with its `max_len`
argument (the service always calls it at the default 40). -/
def title_from_first_user_message (message : String) (max_len : Nat) : String :=
  let normalized := normalize_ws message
  if normalized = "" then "New Chat"
  else if max_len < normalized.length then normalized.take max_len ++ "..."
  else normalized

/-- User row: the fields consumed by plan enforcement and billing
reconciliation (id, plan, plan_status, plan_renews_at as a unix timestamp,
subscription_tier, stripe_customer_id, stripe_subscription_id). -/
structure User where
  id : Nat
  plan : Option String
  plan_status : Option String
  plan_renews_at : Option Int
  subscription_tier : Option String
  stripe_customer_id : Option String
  stripe_subscription_id : Option String
deriving DecidableEq

/-- Embeds `ChatService._effective_plan`. -/
def effective_plan (user : User) : String :=
  let plan := py_lower (py_strip (py_or user.plan "base"))
  let status := py_lower (py_strip (py_or user.plan_status ""))
  if plan = "premium" ∧ (status = "active" ∨ status = "past_due" ∨ status = "trialing") then
    "premium"
  else
    let legacy_tier := py_upper (py_strip (py_or user.subscription_tier ""))
    if legacy_tier = "PREMIUM" ∧ py_truthy user.stripe_subscription_id then "premium"
    else "base"

/-- Embeds the `PlanLimits` dataclass (`None` means unlimited). -/
structure PlanLimits where
  max_threads : Option Nat
  max_messages_per_thread : Option Nat
deriving DecidableEq

/-- Embeds `get_limits_for_plan`. -/
def get_limits_for_plan (plan : String) : PlanLimits :=
  let p := py_lower (py_strip (py_or (some plan) "base"))
  if p = "premium" then ⟨none, none⟩
  else ⟨some 5, some 30⟩

/-- Structured payload of `raise_plan_limit` (the HTTP 402 detail): the
stable code, the human message and the numeric limit placed in the extra
dict (`max_chats` / `max_messages`). -/
structure PlanLimitError where
  code : String
  message : String
  limit : Nat
deriving DecidableEq

/-- Message row: role, text content and the optional image attachment
fields. `created_at` ordering is represented by the position in the owning
thread message list. -/
structure Msg where
  role : String
  content : String
  image_url : Option String
  image_mime_type : Option String
  image_size_bytes : Option Nat
deriving DecidableEq

/-- Builds a plain text message row (no attachment), as `ChatMessage(...)`
is constructed in `add_message` and `replace_messages`. -/
def mkTextMsg (role content : String) : Msg :=
  ⟨role, content, none, none, none⟩

/-- Thread row together with its message rows, in ascending
`created_at`/`id` (insertion) order. -/
structure Thread where
  title : Option String
  messages : List Msg
deriving DecidableEq

/-- Count of rows whose role is user or assistant, the query used by the
message-limit check in `add_message` and `add_image_message`. -/
def count_user_assistant (msgs : List Msg) : Nat :=
  (msgs.filter (fun m => m.role == "user" || m.role == "assistant")).length

/-- First message row with role `user` in id order, the query used by the
title rule. -/
def first_user_message (msgs : List Msg) : Option Msg :=
  msgs.find? (fun m => m.role == "user")

/-- Title-and-insert tail of `ChatService.add_message`, run after the limit
check passed: set the title when the incoming role is `user`, the title
column is NULL and no prior user-role row exists; then append the new row. -/
def add_message_write (t : Thread) (role content : String) : Thread × Msg :=
  let title :=
    if role = "user" ∧ t.title = none ∧ first_user_message t.messages = none then
      some (title_from_first_user_message content 40)
    else t.title
  let m := mkTextMsg role content
  (⟨title, t.messages ++ [m]⟩, m)

/-- Embeds `ChatService.add_message` for a thread already fetched with a
passing ownership check (the `None`/`ValueError` lookup paths are outside
this function). -/
def add_message (user : User) (t : Thread) (role content : String) :
    Except PlanLimitError (Thread × Msg) :=
  match (get_limits_for_plan (effective_plan user)).max_messages_per_thread with
  | some mx =>
    if mx ≤ count_user_assistant t.messages then
      Except.error ⟨"PLAN_MAX_MESSAGES",
        "Base plan allows only 30 messages per chat. Upgrade for unlimited.", mx⟩
    else Except.ok (add_message_write t role content)
  | none => Except.ok (add_message_write t role content)

/-- Title-and-insert tail of `ChatService.add_image_message`: the title is
additionally gated on the trimmed content being non-empty, and the stored
content is the trimmed text. -/
def add_image_message_write (t : Thread) (role content image_url image_mime_type : String)
    (image_size_bytes : Nat) : Thread × Msg :=
  let normalized_content := py_strip content
  let title :=
    if role = "user" ∧ t.title = none ∧ ¬ normalized_content = "" ∧
        first_user_message t.messages = none then
      some (title_from_first_user_message normalized_content 40)
    else t.title
  let m : Msg := ⟨role, normalized_content, some image_url, some image_mime_type,
    some image_size_bytes⟩
  (⟨title, t.messages ++ [m]⟩, m)

/-- Embeds `ChatService.add_image_message` (post-lookup, as `add_message`). -/
def add_image_message (user : User) (t : Thread) (role content image_url image_mime_type : String)
    (image_size_bytes : Nat) : Except PlanLimitError (Thread × Msg) :=
  match (get_limits_for_plan (effective_plan user)).max_messages_per_thread with
  | some mx =>
    if mx ≤ count_user_assistant t.messages then
      Except.error ⟨"PLAN_MAX_MESSAGES",
        "Base plan allows only 30 messages per chat. Upgrade for unlimited.", mx⟩
    else Except.ok (add_image_message_write t role content image_url image_mime_type
      image_size_bytes)
  | none => Except.ok (add_image_message_write t role content image_url image_mime_type
      image_size_bytes)

/-- Embeds `ChatService.replace_messages` (post-lookup): delete every message
row of the thread and insert the provided ordered list; the title column is
left untouched and no plan limit is consulted. -/
def replace_messages (t : Thread) (msgs : List (String × String)) : Thread :=
  ⟨t.title, msgs.map (fun p => mkTextMsg p.1 p.2)⟩

/-- Embeds `ChatService.create_thread` (post user lookup): `thread_count` is
the number of threads the owner already has (the `COUNT` query). A successful
create returns the inserted row, whose title is the given optional initial
title and whose message list is empty. -/
def create_thread (user : User) (thread_count : Nat) (title : Option String) :
    Except PlanLimitError Thread :=
  match (get_limits_for_plan (effective_plan user)).max_threads with
  | some mx =>
    if mx ≤ thread_count then
      Except.error ⟨"PLAN_MAX_CHATS",
        "Base plan allows only 5 chats. Upgrade for unlimited.", mx⟩
    else Except.ok ⟨title, []⟩
  | none => Except.ok ⟨title, []⟩

/-- Embeds `Settings.BASE_CONTEXT_MAX_MESSAGES` from app/core/config.py. -/
def BASE_CONTEXT_MAX_MESSAGES : Nat := 12

/-- Embeds `ChatService.get_context_messages`: `user` is the result of the
owner lookup (`None` falls back to plan `base`), `msgs` the message rows of
the thread in ascending `created_at` order. The Python slice `msgs[-N:]` on a list
longer than `N` is `List.drop (length - N)`. The function only reads; it
returns a message list and no updated state. -/
def get_context_messages (user : Option User) (msgs : List Msg) : List Msg :=
  let plan := match user with
    | some u => effective_plan u
    | none => "base"
  if plan = "base" ∧ BASE_CONTEXT_MAX_MESSAGES < msgs.length then
    msgs.drop (msgs.length - BASE_CONTEXT_MAX_MESSAGES)
  else msgs

/-- Numeric value of a digit list, used by the embedding of Python `int`. -/
def digits_val (ds : List Char) : Int :=
  ds.foldl (fun a c => a * 10 + ((c.toNat - 48 : Nat) : Int)) 0

/-- Embeds Python `int(s)` on a string: surrounding whitespace is ignored, an
optional sign is followed by at least one digit; anything else raises, which
the callers turn into `None`. -/
def py_int (s : String) : Option Int :=
  match (py_strip s).data with
  | [] => none
  | '+' :: ds => if ds ≠ [] ∧ ds.all Char.isDigit then some (digits_val ds) else none
  | '-' :: ds => if ds ≠ [] ∧ ds.all Char.isDigit then some (-(digits_val ds)) else none
  | ds => if ds.all Char.isDigit then some (digits_val ds) else none

/-- Embeds `_map_plan_status` from billing_service.py. -/
def map_plan_status (stripe_status : Option String) : Option String :=
  match stripe_status with
  | none => none
  | some raw =>
    if raw = "" then none
    else
      let s := py_lower raw
      if s = "active" ∨ s = "trialing" then some "active"
      else if s = "past_due" ∨ s = "unpaid" ∨ s = "incomplete" ∨ s = "incomplete_expired" then
        some "past_due"
      else if s = "canceled" then some "canceled"
      else some "past_due"

/-- Embeds `_dt_from_unix`: a missing or zero unix timestamp yields `None`
(Python `if not ts`), otherwise the timestamp itself (the `datetime`
conversion is kept as the integer it represents). -/
def dt_from_unix (ts : Option Int) : Option Int :=
  match ts with
  | none => none
  | some t => if t = 0 then none else some t

/-- Embeds `BillingService._apply_premium`. -/
def apply_premium (user : User) (status : Option String) (renews_at : Option Int) : User :=
  { user with
    plan := some "premium"
    plan_status := some (py_or status (py_or user.plan_status "active"))
    plan_renews_at := renews_at
    subscription_tier := some "PREMIUM" }

/-- Embeds `BillingService._apply_base`. -/
def apply_base (user : User) (status : Option String) : User :=
  { user with
    plan := some "base"
    plan_status := some (py_or status "active")
    plan_renews_at := none
    stripe_subscription_id := none
    subscription_tier := some "BASE" }

/-- Webhook event: the fields of `event` / `data.object` consumed by
`BillingService.handle_event`. `obj_id` is `data.object.id` (the subscription
id on subscription events); `subscription` is `data.object.subscription`
(checkout and invoice events). -/
structure StripeEvent where
  type : Option String
  customer : Option String
  metadata_user_id : Option String
  client_reference_id : Option String
  subscription : Option String
  obj_id : Option String
  status : Option String
  current_period_end : Option Int
deriving DecidableEq

/-- Fallback user reference of `handle_event`: the metadata user id when
truthy, else the client reference id, kept only when itself truthy. -/
def resolved_ref (e : StripeEvent) : Option String :=
  let uid :=
    match e.metadata_user_id with
    | some s => if s = "" then e.client_reference_id else some s
    | none => e.client_reference_id
  match uid with
  | some s => if s = "" then none else some s
  | none => none

/-- Fallback lookup of `handle_event`: `int(user_id)` on the resolved
reference, then the query by primary key; a failed `int(...)` yields no
user. -/
def find_user_by_ref (db : List User) (e : StripeEvent) : Option User :=
  match (resolved_ref e).bind py_int with
  | some n => db.find? (fun u => ((u.id : Int)) == n)
  | none => none

/-- User-resolution prefix of `BillingService.handle_event`: look up by
stripe customer id when the event carries a truthy one, else by the parsed
numeric fallback reference. -/
def find_user_for_event (db : List User) (e : StripeEvent) : Option User :=
  match
    (if py_truthy e.customer then db.find? (fun u => u.stripe_customer_id == e.customer)
     else none) with
  | some u => some u
  | none => find_user_by_ref db e

/-- Attachment step of the subscription created/updated branch of
`handle_event`: record the subscription id from the event object and, when
the user row lacks one, the customer id, before the status branch runs. -/
def sub_event_target (user : User) (e : StripeEvent) : User :=
  let u1 :=
    if py_truthy e.obj_id then { user with stripe_subscription_id := e.obj_id }
    else user
  if py_truthy e.customer ∧ ¬ py_truthy u1.stripe_customer_id then
    { u1 with stripe_customer_id := e.customer }
  else u1

/-- Per-user effect of `BillingService.handle_event` once a user is resolved:
the event-type dispatch and field updates applied to the row of that
user. -/
def handle_event_user (user : User) (e : StripeEvent) : User :=
  let event_type := py_strip (py_or e.type "")
  if event_type = "checkout.session.completed" then
    let u1 :=
      if py_truthy e.customer ∧ ¬ py_truthy user.stripe_customer_id then
        { user with stripe_customer_id := e.customer }
      else user
    let u2 :=
      if py_truthy e.subscription then { u1 with stripe_subscription_id := e.subscription }
      else u1
    apply_premium u2 (some "active") u2.plan_renews_at
  else if event_type = "customer.subscription.created" ∨
      event_type = "customer.subscription.updated" then
    if map_plan_status e.status = some "canceled" then
      apply_base (sub_event_target user e) (some "canceled")
    else
      apply_premium (sub_event_target user e)
        (some (py_or (map_plan_status e.status) "active"))
        (dt_from_unix e.current_period_end)
  else if event_type = "customer.subscription.deleted" then
    apply_base user (some "canceled")
  else if event_type = "invoice.paid" then
    let u1 :=
      if py_truthy e.subscription then { user with stripe_subscription_id := e.subscription }
      else user
    apply_premium u1 (some "active") u1.plan_renews_at
  else if event_type = "invoice.payment_failed" then
    apply_premium user (some "past_due") user.plan_renews_at
  else user

/-- Embeds `BillingService.handle_event` over the users table: when no user
is resolved the table is returned unchanged, otherwise the row of the
resolved user is updated in place. -/
def handle_event (db : List User) (e : StripeEvent) : List User :=
  match find_user_for_event db e with
  | none => db
  | some user => db.map (fun u => if u.id = user.id then handle_event_user user e else u)

/-- Python `str.split(",")` on a character list. -/
def split_on_comma : List Char → List (List Char)
  | [] => [[]]
  | c :: cs =>
    if c = ',' then [] :: split_on_comma cs
    else
      match split_on_comma cs with
      | [] => [[c]]
      | h :: t => (c :: h) :: t

/-- Parsing loop of `verify_stripe_signature`: split the header on commas,
strip the parts, drop the empty ones; a part starting with `t=` (re)sets the
timestamp to the parsed integer after the first `=` (`None` on parse
failure), a part starting with `v1=` appends the text after the first `=` as
a signature. Returns the final timestamp and the collected signatures. -/
def parse_sig_header (h : String) : Option Int × List String :=
  (((split_on_comma h.data).map py_strip_list).filter (fun p => ¬ p = [])).foldl
    (fun acc p =>
      match p with
      | 't' :: '=' :: rest => (py_int (String.mk rest), acc.2)
      | 'v' :: '1' :: '=' :: rest => (acc.1, acc.2 ++ [String.mk rest])
      | _ => acc)
    (none, [])

/-- Embeds `verify_stripe_signature` from app/core/stripe.py. `mac` abstracts
the external collaborator `hmac.new(key, msg, sha256).hexdigest()`; `now` is
`int(time.time())`; the payload bytes are modelled as a string. A missing
webhook secret raises `StripeConfigError`, embedded as the `error` branch. -/
def verify_stripe_signature (mac : String → String → String) (secret : String)
    (payload : String) (sig_header : Option String) (now tolerance_seconds : Int) :
    Except String Bool :=
  if secret = "" then Except.error "STRIPE_WEBHOOK_SECRET is not configured"
  else if ¬ py_truthy sig_header then Except.ok false
  else
    match (parse_sig_header (py_or sig_header "")).1 with
    | none => Except.ok false
    | some timestamp =>
      if (parse_sig_header (py_or sig_header "")).2 = [] then Except.ok false
      else if tolerance_seconds < |now - timestamp| then Except.ok false
      else
        Except.ok ((parse_sig_header (py_or sig_header "")).2.any
          (fun s => mac secret (toString timestamp ++ "." ++ payload) == s))

/-- Premium-effectiveness condition as the spec words it: stored plan field
premium with an active-like status, or the legacy tier flag PREMIUM together
with a present subscription reference (field values taken up to the
normalization the stored columns undergo). Stated for comparison against
`effective_plan`. -/
def premium_effective_spec (u : User) : Prop :=
  (py_lower (py_strip (py_or u.plan "base")) = "premium" ∧
    (py_lower (py_strip (py_or u.plan_status "")) = "active" ∨
     py_lower (py_strip (py_or u.plan_status "")) = "past_due" ∨
     py_lower (py_strip (py_or u.plan_status "")) = "trialing")) ∨
  (py_upper (py_strip (py_or u.subscription_tier "")) = "PREMIUM" ∧
    py_truthy u.stripe_subscription_id = true)

instance (u : User) : Decidable (premium_effective_spec u) := by
  unfold premium_effective_spec
  infer_instance

/-- Fixture: a base-plan user row. -/
def baseUser : User := ⟨1, some "base", none, none, none, none, none⟩

/-- Fixture: a premium user row with active status. -/
def premiumUser : User := ⟨2, some "premium", some "active", none, none, none, none⟩

/-- Fixture: twenty text messages in creation order. -/
def msgs20 : List Msg := (List.range 20).map (fun i => mkTextMsg "user" (toString i))

/-- Fixture: a premium user row with a stripe customer id, used by the
billing counterexample. -/
def cexUser : User :=
  ⟨7, some "premium", some "active", some 111, none, some "cus_7", some "sub_7"⟩

/-- Fixture: a subscription-updated event whose status field holds the empty
string, resolving to `cexUser` by customer id. -/
def cexEvent : StripeEvent :=
  ⟨some "customer.subscription.updated", some "cus_7", none, none, none,
    some "sub_7", some "", some 999⟩

/-- Fixture: an event whose customer id and references match no user. -/
def strayEvent : StripeEvent :=
  ⟨some "customer.subscription.deleted", some "cus_unknown", none, none, none,
    some "sub_x", some "canceled", some 5⟩

/-- Fixture: a toy stand-in for the HMAC collaborator in witnesses. -/
def macW : String → String → String := fun k m => k ++ "." ++ m

/- Shared helper lemmas. -/

theorem limits_base : get_limits_for_plan "base" = ⟨some 5, some 30⟩ := by decide

theorem limits_premium : get_limits_for_plan "premium" = ⟨none, none⟩ := by decide

theorem count_user_assistant_append_le (l : List Msg) (m : Msg) :
    count_user_assistant (l ++ [m]) ≤ count_user_assistant l + 1 := by
  simp only [count_user_assistant, List.filter_append, List.length_append]
  have : (List.filter (fun m => m.role == "user" || m.role == "assistant") [m]).length ≤ 1 := by
    cases hb : (m.role == "user" || m.role == "assistant") <;> simp [List.filter, hb]
  omega

theorem add_message_ok_eq {u : User} {t : Thread} {role content : String}
    {r : Thread × Msg} (h : add_message u t role content = Except.ok r) :
    r = add_message_write t role content := by
  unfold add_message at h
  split at h
  · split at h
    · cases h
    · exact (Except.ok.inj h).symm
  · exact (Except.ok.inj h).symm

theorem add_image_message_ok_eq {u : User} {t : Thread}
    {role content image_url image_mime_type : String} {image_size_bytes : Nat}
    {r : Thread × Msg}
    (h : add_image_message u t role content image_url image_mime_type image_size_bytes
      = Except.ok r) :
    r = add_image_message_write t role content image_url image_mime_type image_size_bytes := by
  unfold add_image_message at h
  split at h
  · split at h
    · cases h
    · exact (Except.ok.inj h).symm
  · exact (Except.ok.inj h).symm

theorem first_user_message_eq_none_iff (msgs : List Msg) :
    first_user_message msgs = none ↔ ∀ x ∈ msgs, ¬ x.role = "user" := by
  simp [first_user_message, List.find?_eq_none]

theorem map_plan_status_values (s : Option String) :
    map_plan_status s = none ∨ map_plan_status s = some "active" ∨
    map_plan_status s = some "past_due" ∨ map_plan_status s = some "canceled" := by
  cases s with
  | none => simp [map_plan_status]
  | some raw =>
    simp only [map_plan_status]
    split_ifs <;> simp

theorem py_or_some_ne_empty {x : String} (hx : ¬ x = "") (d : String) :
    py_or (some x) d = x := by
  simp [py_or, hx]

theorem limits_base_mx : (get_limits_for_plan "base").max_messages_per_thread = some 30 := by
  decide

theorem limits_base_threads : (get_limits_for_plan "base").max_threads = some 5 := by
  decide

theorem limits_premium_mx : (get_limits_for_plan "premium").max_messages_per_thread = none := by
  decide

theorem limits_premium_threads : (get_limits_for_plan "premium").max_threads = none := by
  decide

/-- C8: the effective plan used for enforcement is premium exactly when the
stored plan field is premium with status active, past_due or trialing, or the
legacy tier flag is PREMIUM with a subscription reference present; every
other combination of the fields resolves to base. -/
theorem effective_plan_premium_iff (u : User) :
    (effective_plan u = "premium" ↔ premium_effective_spec u) ∧
    (effective_plan u = "premium" ∨ effective_plan u = "base") := by
  constructor
  · simp only [effective_plan, premium_effective_spec]
    split_ifs with h1 h2
    · exact iff_of_true rfl (Or.inl h1)
    · refine iff_of_true rfl (Or.inr ?_)
      exact ⟨h2.1, by simpa using h2.2⟩
    · refine iff_of_false (by decide) ?_
      rintro (h | h)
      · exact h1 h
      · exact h2 ⟨h.1, by simpa using h.2⟩
  · simp only [effective_plan]
    split_ifs <;> simp

/-- Witness for C8 at concrete user rows. -/
theorem effective_plan_premium_iff_witness :
    effective_plan premiumUser = "premium" ∧ effective_plan baseUser = "base" := by
  constructor
  · exact (effective_plan_premium_iff premiumUser).1.mpr (by decide)
  · exact (effective_plan_premium_iff baseUser).2.resolve_left (by decide)

/-- C2: on a base-plan thread, a text or image append succeeds while the
thread holds at most 29 user+assistant rows and fails with the stable code
PLAN_MAX_MESSAGES and limit 30 once it holds 30 of them; system-role rows do
not enter the count, and a premium owner is never rejected here. -/
theorem add_message_plan_limit_spec (u : User) (t : Thread)
    (role content image_url image_mime_type : String) (image_size_bytes : Nat) :
    (effective_plan u = "base" → count_user_assistant t.messages ≤ 29 →
      ∃ r, add_message u t role content = Except.ok r) ∧
    (effective_plan u = "base" → 30 ≤ count_user_assistant t.messages →
      ∃ err, add_message u t role content = Except.error err ∧
        err.code = "PLAN_MAX_MESSAGES" ∧ err.limit = 30) ∧
    (effective_plan u = "base" → count_user_assistant t.messages ≤ 29 →
      ∃ r, add_image_message u t role content image_url image_mime_type image_size_bytes
        = Except.ok r) ∧
    (effective_plan u = "base" → 30 ≤ count_user_assistant t.messages →
      ∃ err, add_image_message u t role content image_url image_mime_type image_size_bytes
        = Except.error err ∧ err.code = "PLAN_MAX_MESSAGES" ∧ err.limit = 30) ∧
    (effective_plan u = "premium" →
      ∃ r, add_message u t role content = Except.ok r) ∧
    (effective_plan u = "premium" →
      ∃ r, add_image_message u t role content image_url image_mime_type image_size_bytes
        = Except.ok r) ∧
    (∀ m : Msg, m.role = "system" →
      count_user_assistant (t.messages ++ [m]) = count_user_assistant t.messages) := by
  refine ⟨?_, ?_, ?_, ?_, ?_, ?_, ?_⟩
  · intro hb hc
    simp only [add_message, hb, limits_base_mx]
    rw [if_neg (by omega)]
    exact ⟨_, rfl⟩
  · intro hb hc
    simp only [add_message, hb, limits_base_mx]
    rw [if_pos (by omega)]
    exact ⟨_, rfl, rfl, rfl⟩
  · intro hb hc
    simp only [add_image_message, hb, limits_base_mx]
    rw [if_neg (by omega)]
    exact ⟨_, rfl⟩
  · intro hb hc
    simp only [add_image_message, hb, limits_base_mx]
    rw [if_pos (by omega)]
    exact ⟨_, rfl, rfl, rfl⟩
  · intro hp
    simp only [add_message, hp, limits_premium_mx]
    exact ⟨_, rfl⟩
  · intro hp
    simp only [add_image_message, hp, limits_premium_mx]
    exact ⟨_, rfl⟩
  · intro m hm
    have hp : (m.role == "user" || m.role == "assistant") = false := by
      rw [hm]; decide
    simp [count_user_assistant, List.filter_append, List.filter_cons, hp]

/-- Witness for C2: the 30th append succeeds, the 31st fails with the code
and limit, a premium owner is not limited, and a system row does not count. -/
theorem add_message_plan_limit_spec_witness :
    (∃ r, add_message baseUser ⟨none, List.replicate 29 (mkTextMsg "user" "x")⟩ "user" "hi"
      = Except.ok r) ∧
    (∃ err, add_message baseUser ⟨none, List.replicate 30 (mkTextMsg "user" "x")⟩ "user" "hi"
      = Except.error err ∧ err.code = "PLAN_MAX_MESSAGES" ∧ err.limit = 30) ∧
    (∃ r, add_image_message baseUser ⟨none, List.replicate 29 (mkTextMsg "user" "x")⟩
      "user" "hi" "u" "image/png" 9 = Except.ok r) ∧
    (∃ err, add_image_message baseUser ⟨none, List.replicate 30 (mkTextMsg "user" "x")⟩
      "user" "hi" "u" "image/png" 9 = Except.error err ∧
      err.code = "PLAN_MAX_MESSAGES" ∧ err.limit = 30) ∧
    (∃ r, add_message premiumUser ⟨none, List.replicate 30 (mkTextMsg "user" "x")⟩ "user" "hi"
      = Except.ok r) ∧
    count_user_assistant (List.replicate 30 (mkTextMsg "user" "x") ++ [mkTextMsg "system" "s"])
      = count_user_assistant (List.replicate 30 (mkTextMsg "user" "x")) := by
  refine ⟨?_, ?_, ?_, ?_, ?_, ?_⟩
  · exact (add_message_plan_limit_spec baseUser ⟨none, List.replicate 29 (mkTextMsg "user" "x")⟩
      "user" "hi" "u" "image/png" 9).1 (by decide) (by decide)
  · exact (add_message_plan_limit_spec baseUser ⟨none, List.replicate 30 (mkTextMsg "user" "x")⟩
      "user" "hi" "u" "image/png" 9).2.1 (by decide) (by decide)
  · exact (add_message_plan_limit_spec baseUser ⟨none, List.replicate 29 (mkTextMsg "user" "x")⟩
      "user" "hi" "u" "image/png" 9).2.2.1 (by decide) (by decide)
  · exact (add_message_plan_limit_spec baseUser ⟨none, List.replicate 30 (mkTextMsg "user" "x")⟩
      "user" "hi" "u" "image/png" 9).2.2.2.1 (by decide) (by decide)
  · exact (add_message_plan_limit_spec premiumUser ⟨none, List.replicate 30 (mkTextMsg "user" "x")⟩
      "user" "hi" "u" "image/png" 9).2.2.2.2.1 (by decide)
  · exact (add_message_plan_limit_spec baseUser ⟨none, List.replicate 30 (mkTextMsg "user" "x")⟩
      "user" "hi" "u" "image/png" 9).2.2.2.2.2.2 (mkTextMsg "system" "s") rfl

/-- C3: for a base-plan owner a thread create succeeds while the owner has at
most 4 threads and fails with the stable code PLAN_MAX_CHATS and limit 5 once
5 exist; a premium owner always succeeds; a successful create with no initial
title inserts a NULL-titled thread. -/
theorem create_thread_plan_limit_spec (u : User) (n : Nat) (title : Option String) :
    (effective_plan u = "base" → n ≤ 4 → create_thread u n title = Except.ok ⟨title, []⟩) ∧
    (effective_plan u = "base" → 5 ≤ n →
      ∃ err, create_thread u n title = Except.error err ∧
        err.code = "PLAN_MAX_CHATS" ∧ err.limit = 5) ∧
    (effective_plan u = "premium" → create_thread u n title = Except.ok ⟨title, []⟩) ∧
    (∀ th, create_thread u n none = Except.ok th → th.title = none) := by
  refine ⟨?_, ?_, ?_, ?_⟩
  · intro hb hc
    simp only [create_thread, hb, limits_base_threads]
    rw [if_neg (by omega)]
  · intro hb hc
    simp only [create_thread, hb, limits_base_threads]
    rw [if_pos (by omega)]
    exact ⟨_, rfl, rfl, rfl⟩
  · intro hp
    simp only [create_thread, hp, limits_premium_threads]
  · intro th h
    unfold create_thread at h
    split at h
    · split at h
      · cases h
      · rw [← Except.ok.inj h]
    · rw [← Except.ok.inj h]

/-- Witness for C3: the 5th create succeeds, the 6th fails with code and
limit, a premium owner with many threads still succeeds, and a create with
no title yields a NULL title. -/
theorem create_thread_plan_limit_spec_witness :
    create_thread baseUser 4 none = Except.ok ⟨none, []⟩ ∧
    (∃ err, create_thread baseUser 5 none = Except.error err ∧
      err.code = "PLAN_MAX_CHATS" ∧ err.limit = 5) ∧
    create_thread premiumUser 100 (some "t") = Except.ok ⟨some "t", []⟩ ∧
    (create_thread baseUser 0 none).toOption.map Thread.title = some none := by
  refine ⟨?_, ?_, ?_, ?_⟩
  · exact (create_thread_plan_limit_spec baseUser 4 none).1 (by decide) (by decide)
  · exact (create_thread_plan_limit_spec baseUser 5 none).2.1 (by decide) (by decide)
  · exact (create_thread_plan_limit_spec premiumUser 100 (some "t")).2.2.1 (by decide)
  · have h := (create_thread_plan_limit_spec baseUser 0 none).1 (by decide) (by decide)
    rw [h]
    rfl

theorem add_message_write_title (t : Thread) (role content : String) :
    (add_message_write t role content).1.title =
      if role = "user" ∧ t.title = none ∧ first_user_message t.messages = none then
        some (title_from_first_user_message content 40)
      else t.title := rfl

theorem add_message_write_messages (t : Thread) (role content : String) :
    (add_message_write t role content).1.messages
      = t.messages ++ [(add_message_write t role content).2] := rfl

theorem add_image_message_write_title (t : Thread)
    (role content image_url image_mime_type : String) (image_size_bytes : Nat) :
    (add_image_message_write t role content image_url image_mime_type image_size_bytes).1.title =
      if role = "user" ∧ t.title = none ∧ ¬ py_strip content = "" ∧
          first_user_message t.messages = none then
        some (title_from_first_user_message (py_strip content) 40)
      else t.title := rfl

theorem add_image_message_write_messages (t : Thread)
    (role content image_url image_mime_type : String) (image_size_bytes : Nat) :
    (add_image_message_write t role content image_url image_mime_type image_size_bytes).1.messages
      = t.messages ++
        [(add_image_message_write t role content image_url image_mime_type image_size_bytes).2]
      := rfl

theorem add_image_message_write_role (t : Thread)
    (role content image_url image_mime_type : String) (image_size_bytes : Nat) :
    (add_image_message_write t role content image_url image_mime_type image_size_bytes).2.role
      = role := rfl

/-- C1 (amended): a successful append sets the thread title exactly when the
incoming role is user, the title column is NULL (an empty-string title,
although displayed as unset elsewhere, blocks assignment here) and no prior
user-role row exists; the assigned title is the content with whitespace runs
collapsed to single spaces and trimmed, truncated at 40 characters with an
ellipsis marker when longer, and the literal fallback when the normalized
content is empty. -/
theorem add_message_sets_title_iff (u : User) (t : Thread) (role content : String)
    (t' : Thread) (m : Msg) (h : add_message u t role content = Except.ok (t', m)) :
    (t'.title =
      if role = "user" ∧ t.title = none ∧ first_user_message t.messages = none then
        some (title_from_first_user_message content 40)
      else t.title) ∧
    (first_user_message t.messages = none ↔ ∀ x ∈ t.messages, ¬ x.role = "user") ∧
    (normalize_ws content = "" → title_from_first_user_message content 40 = "New Chat") ∧
    (¬ normalize_ws content = "" → (normalize_ws content).length ≤ 40 →
      title_from_first_user_message content 40 = normalize_ws content) ∧
    (40 < (normalize_ws content).length →
      title_from_first_user_message content 40 = (normalize_ws content).take 40 ++ "...") := by
  have hr := add_message_ok_eq h
  have ht : t' = (add_message_write t role content).1 := by rw [← hr]
  refine ⟨?_, first_user_message_eq_none_iff t.messages, ?_, ?_, ?_⟩
  · rw [ht, add_message_write_title]
  · intro hn
    simp only [title_from_first_user_message]
    rw [if_pos hn]
  · intro hn hl
    simp only [title_from_first_user_message]
    rw [if_neg hn, if_neg (by omega)]
  · intro hl
    have hn : ¬ normalize_ws content = "" := by
      intro he
      rw [he] at hl
      simp at hl
    simp only [title_from_first_user_message]
    rw [if_neg hn, if_pos hl]

/-- Counterexample to C1 as frozen: with an empty-string title — unset in the
sense of the claim — a first user message does not set the title; the
append keeps the empty title although the claim predicts the assigned
value. -/
theorem add_message_title_empty_string_counterexample :
    first_user_message ([] : List Msg) = none ∧
    add_message baseUser ⟨some "", []⟩ "user" "Hello" =
      Except.ok (⟨some "", [mkTextMsg "user" "Hello"]⟩, mkTextMsg "user" "Hello") ∧
    title_from_first_user_message "Hello" 40 = "Hello" ∧
    (some "" : Option String) ≠ some (title_from_first_user_message "Hello" 40) := by
  decide

/-- Witness for C1 (amended) at a concrete append that sets the title. -/
theorem add_message_sets_title_iff_witness :
    add_message baseUser ⟨none, []⟩ "user" "  Hello   world  " =
      Except.ok (⟨some "Hello world", [mkTextMsg "user" "  Hello   world  "]⟩,
        mkTextMsg "user" "  Hello   world  ") ∧
    (⟨some "Hello world", [mkTextMsg "user" "  Hello   world  "]⟩ : Thread).title
      = some (title_from_first_user_message "  Hello   world  " 40) := by
  have h : add_message baseUser ⟨none, []⟩ "user" "  Hello   world  " =
      Except.ok (⟨some "Hello world", [mkTextMsg "user" "  Hello   world  "]⟩,
        mkTextMsg "user" "  Hello   world  ") := by decide
  refine ⟨h, ?_⟩
  have hc := (add_message_sets_title_iff baseUser ⟨none, []⟩ "user" "  Hello   world  "
    _ _ h).1
  rw [hc, if_pos ⟨rfl, rfl, rfl⟩]

/-- C5 (amended): the two append operations enforce the base-plan limit
before writing, so a successful append never leaves a base-plan thread with
more than 30 user+assistant rows; the bulk replace, by contrast, writes the
provided list verbatim with no limit check (see the counterexample). -/
theorem append_preserves_message_cap (u : User) (t : Thread)
    (role content image_url image_mime_type : String) (image_size_bytes : Nat)
    (msgs : List (String × String)) :
    (effective_plan u = "base" → ∀ t' m, add_message u t role content = Except.ok (t', m) →
      count_user_assistant t'.messages ≤ 30) ∧
    (effective_plan u = "base" → ∀ t' m,
      add_image_message u t role content image_url image_mime_type image_size_bytes
        = Except.ok (t', m) → count_user_assistant t'.messages ≤ 30) ∧
    (replace_messages t msgs).messages = msgs.map (fun p => mkTextMsg p.1 p.2) ∧
    (replace_messages t msgs).title = t.title := by
  refine ⟨?_, ?_, rfl, rfl⟩
  · intro hb t' m h
    have hc : ¬ 30 ≤ count_user_assistant t.messages := by
      intro hge
      simp only [add_message, hb, limits_base_mx] at h
      rw [if_pos hge] at h
      cases h
    have ht : t' = (add_message_write t role content).1 := by
      rw [← add_message_ok_eq h]
    rw [ht]
    have := count_user_assistant_append_le t.messages (add_message_write t role content).2
    rw [add_message_write_messages]
    omega
  · intro hb t' m h
    have hc : ¬ 30 ≤ count_user_assistant t.messages := by
      intro hge
      simp only [add_image_message, hb, limits_base_mx] at h
      rw [if_pos hge] at h
      cases h
    have ht : t' = (add_image_message_write t role content image_url image_mime_type
        image_size_bytes).1 := by
      rw [← add_image_message_ok_eq h]
    rw [ht]
    have := count_user_assistant_append_le t.messages
      (add_image_message_write t role content image_url image_mime_type image_size_bytes).2
    rw [add_image_message_write_messages]
    omega

/-- Counterexample to C5 as frozen: the bulk replace runs no message-limit
check, so for a base-plan owner it can leave a thread holding 31
user+assistant rows, above the base limit of 30. -/
theorem replace_messages_no_limit_counterexample :
    effective_plan baseUser = "base" ∧
    count_user_assistant
      (replace_messages ⟨none, []⟩ (List.replicate 31 ("user", "hi"))).messages = 31 ∧
    30 < 31 := by
  decide

/-- Witness for C5 (amended): an append on a base thread holding 29 rows
lands at 30, within the cap. -/
theorem append_preserves_message_cap_witness :
    count_user_assistant
      (List.replicate 29 (mkTextMsg "user" "x") ++ [mkTextMsg "user" "hi"]) ≤ 30 := by
  refine (append_preserves_message_cap baseUser
    ⟨some "T", List.replicate 29 (mkTextMsg "user" "x")⟩ "user" "hi" "u" "image/png" 1 []).1
    (by decide) ⟨some "T", List.replicate 29 (mkTextMsg "user" "x") ++ [mkTextMsg "user" "hi"]⟩
    (mkTextMsg "user" "hi") (by decide)

/-- C6 (amended): a user-role image message whose text is empty after
trimming is inserted without touching the title; but it does count as a
prior user-role message, so a subsequent user text message can no longer set
the title (contrary to the frozen claim — see the counterexample). -/
theorem image_only_message_title_behavior (u : User) (t : Thread)
    (role content image_url image_mime_type : String) (image_size_bytes : Nat) :
    (py_strip content = "" →
      ∀ t' m, add_image_message u t "user" content image_url image_mime_type image_size_bytes
          = Except.ok (t', m) →
        t'.title = t.title ∧ t'.messages = t.messages ++ [m] ∧ m.role = "user") ∧
    ((∃ x ∈ t.messages, x.role = "user") →
      ∀ t' m, add_message u t role content = Except.ok (t', m) → t'.title = t.title) := by
  constructor
  · intro hc t' m h
    have hr := add_image_message_ok_eq h
    have ht : t' = (add_image_message_write t "user" content image_url image_mime_type
        image_size_bytes).1 := by rw [← hr]
    have hm : m = (add_image_message_write t "user" content image_url image_mime_type
        image_size_bytes).2 := by rw [← hr]
    refine ⟨?_, ?_, ?_⟩
    · rw [ht, add_image_message_write_title,
        if_neg (fun hcond => hcond.2.2.1 hc)]
    · rw [ht, hm, add_image_message_write_messages]
    · rw [hm, add_image_message_write_role]
  · intro hex t' m h
    have ht : t' = (add_message_write t role content).1 := by
      rw [← add_message_ok_eq h]
    have hf : ¬ first_user_message t.messages = none := by
      rw [first_user_message_eq_none_iff]
      push_neg
      obtain ⟨x, hx, hrole⟩ := hex
      exact ⟨x, hx, hrole⟩
    rw [ht, add_message_write_title, if_neg (fun hcond => hf hcond.2.2)]

/-- Counterexample to C6 as frozen: after an image-only first user message,
the next user text message — the first one carrying non-empty text — does
not set the title: the image row already counts as the first user-role
message, so the title stays NULL rather than becoming the claimed value. -/
theorem image_only_then_text_title_counterexample :
    add_image_message baseUser ⟨none, []⟩ "user" "" "u" "image/png" 1 =
      Except.ok (⟨none, [⟨"user", "", some "u", some "image/png", some 1⟩]⟩,
        ⟨"user", "", some "u", some "image/png", some 1⟩) ∧
    (add_message baseUser ⟨none, [⟨"user", "", some "u", some "image/png", some 1⟩]⟩
        "user" "Hello").toOption.map (fun r => r.1.title) = some none ∧
    title_from_first_user_message "Hello" 40 = "Hello" ∧
    (none : Option String) ≠ some "Hello" := by
  decide

/-- Witness for C6 (amended) at concrete appends. -/
theorem image_only_message_title_behavior_witness :
    (⟨none, [⟨"user", "", some "u", some "image/png", some 2⟩]⟩ : Thread).title
      = (⟨none, []⟩ : Thread).title ∧
    (⟨none, [mkTextMsg "user" "Hi", mkTextMsg "user" "New"]⟩ : Thread).title
      = (⟨none, [mkTextMsg "user" "Hi"]⟩ : Thread).title := by
  constructor
  · exact ((image_only_message_title_behavior baseUser ⟨none, []⟩ "user" "  " "u"
      "image/png" 2).1 (by decide)
      ⟨none, [⟨"user", "", some "u", some "image/png", some 2⟩]⟩
      ⟨"user", "", some "u", some "image/png", some 2⟩ (by decide)).1
  · exact (image_only_message_title_behavior baseUser ⟨none, [mkTextMsg "user" "Hi"]⟩
      "user" "New" "u" "image/png" 2).2 (by decide)
      ⟨none, [mkTextMsg "user" "Hi", mkTextMsg "user" "New"]⟩ (mkTextMsg "user" "New")
      (by decide)

/-- C7: context retrieval keeps the ascending order it reads, truncating to
the most recent 12 rows for a base-plan owner with more than 12 and
returning the full history for premium; the read queries nothing but the
rows and produces no state update (the embedding returns only the list). -/
theorem get_context_messages_spec (u : User) (msgs : List Msg) :
    (effective_plan u = "premium" → get_context_messages (some u) msgs = msgs) ∧
    (effective_plan u = "base" → msgs.length ≤ BASE_CONTEXT_MAX_MESSAGES →
      get_context_messages (some u) msgs = msgs) ∧
    (effective_plan u = "base" → BASE_CONTEXT_MAX_MESSAGES < msgs.length →
      get_context_messages (some u) msgs
          = msgs.drop (msgs.length - BASE_CONTEXT_MAX_MESSAGES) ∧
        (get_context_messages (some u) msgs).length = BASE_CONTEXT_MAX_MESSAGES ∧
        get_context_messages (some u) msgs <:+ msgs) := by
  refine ⟨?_, ?_, ?_⟩
  · intro hp
    simp only [get_context_messages, hp]
    rw [if_neg (fun hcond => absurd hcond.1 (by decide))]
  · intro hb hl
    simp only [get_context_messages, hb]
    rw [if_neg (fun hcond => absurd hcond.2 (by omega))]
  · intro hb hl
    have he : get_context_messages (some u) msgs
        = msgs.drop (msgs.length - BASE_CONTEXT_MAX_MESSAGES) := by
      simp only [get_context_messages, hb]
      rw [if_pos ⟨by simp, hl⟩]
    refine ⟨he, ?_, ?_⟩
    · rw [he, List.length_drop]
      simp only [BASE_CONTEXT_MAX_MESSAGES] at hl ⊢
      omega
    · rw [he]
      exact List.drop_suffix _ _

/-- Witness for C7: with 20 stored messages, base retrieval returns exactly
the last 12 (drop of the first 8) and premium retrieval returns all 20. -/
theorem get_context_messages_spec_witness :
    get_context_messages (some premiumUser) msgs20 = msgs20 ∧
    get_context_messages (some baseUser) msgs20 = msgs20.drop 8 ∧
    (get_context_messages (some baseUser) msgs20).length = 12 := by
  refine ⟨(get_context_messages_spec premiumUser msgs20).1 (by decide), ?_, ?_⟩
  · have h := ((get_context_messages_spec baseUser msgs20).2.2 (by decide) (by decide)).1
    rw [h]
    decide
  · exact ((get_context_messages_spec baseUser msgs20).2.2 (by decide) (by decide)).2.1

/-- C9: an event that resolves to no user — no truthy customer id matching a
row, and no truthy metadata/checkout reference parsing to a stored primary
key — is ignored: handling returns the user table unchanged, with no row
modified. -/
theorem handle_event_unknown_user_no_effect (db : List User) (e : StripeEvent)
    (hcust : ∀ u ∈ db, py_truthy e.customer = true → ¬ u.stripe_customer_id = e.customer)
    (href : ∀ u ∈ db, ∀ n : Int, (resolved_ref e).bind py_int = some n → ¬ (u.id : Int) = n) :
    handle_event db e = db := by
  have hbr : find_user_by_ref db e = none := by
    unfold find_user_by_ref
    split
    · rename_i n hn
      rw [List.find?_eq_none]
      intro u hu
      simpa using href u hu n hn
    · rfl
  have hbc : (if py_truthy e.customer then
      db.find? (fun u => u.stripe_customer_id == e.customer) else none) = none := by
    by_cases hc : py_truthy e.customer
    · rw [if_pos hc, List.find?_eq_none]
      intro u hu
      simpa using hcust u hu hc
    · rw [if_neg hc]
  have hfind : find_user_for_event db e = none := by
    unfold find_user_for_event
    rw [hbc]
    exact hbr
  unfold handle_event
  rw [hfind]

/-- Witness for C9: a deletion event for an unknown customer leaves a
two-user table untouched. -/
theorem handle_event_unknown_user_no_effect_witness :
    handle_event [baseUser, premiumUser] strayEvent = [baseUser, premiumUser] := by
  refine handle_event_unknown_user_no_effect [baseUser, premiumUser] strayEvent
    (by decide) ?_
  intro u hu n hn
  rw [(by decide : (resolved_ref strayEvent).bind py_int = none)] at hn
  exact Option.noConfusion hn

theorem py_or_map_plan_status_ne_empty (s : Option String) :
    ¬ py_or (map_plan_status s) "active" = "" := by
  rcases map_plan_status_values s with h | h | h | h <;> rw [h] <;> decide

/-- C4 (amended): on a subscription created/updated event resolving to a
user, non-empty external statuses map per the table (active/trialing to
active; past_due/unpaid/incomplete/incomplete_expired to past_due; canceled
to canceled; any other non-empty value to past_due); a mapped canceled
downgrades to base with subscription id, renewal date cleared and status
canceled; otherwise the user becomes premium with the mapped status — an
absent or empty external status yielding active, not past_due — and the
renewal date from the period-end timestamp of the event. -/
theorem subscription_update_reconciliation (db : List User) (e : StripeEvent) (u : User)
    (htype : py_strip (py_or e.type "") = "customer.subscription.created" ∨
      py_strip (py_or e.type "") = "customer.subscription.updated")
    (hfind : find_user_for_event db e = some u) :
    handle_event db e
        = db.map (fun x => if x.id = u.id then handle_event_user u e else x) ∧
    (map_plan_status e.status = some "canceled" →
      (handle_event_user u e).plan = some "base" ∧
      (handle_event_user u e).plan_status = some "canceled" ∧
      (handle_event_user u e).plan_renews_at = none ∧
      (handle_event_user u e).stripe_subscription_id = none) ∧
    (¬ map_plan_status e.status = some "canceled" →
      (handle_event_user u e).plan = some "premium" ∧
      (handle_event_user u e).plan_status = some (py_or (map_plan_status e.status) "active") ∧
      (handle_event_user u e).plan_renews_at = dt_from_unix e.current_period_end) ∧
    (∀ s : String, ¬ s = "" →
      ((py_lower s = "active" ∨ py_lower s = "trialing") →
        map_plan_status (some s) = some "active") ∧
      ((py_lower s = "past_due" ∨ py_lower s = "unpaid" ∨ py_lower s = "incomplete" ∨
          py_lower s = "incomplete_expired") →
        map_plan_status (some s) = some "past_due") ∧
      (py_lower s = "canceled" → map_plan_status (some s) = some "canceled") ∧
      (¬ (py_lower s = "active" ∨ py_lower s = "trialing" ∨ py_lower s = "past_due" ∨
          py_lower s = "unpaid" ∨ py_lower s = "incomplete" ∨
          py_lower s = "incomplete_expired" ∨ py_lower s = "canceled") →
        map_plan_status (some s) = some "past_due")) := by
  have het : handle_event_user u e =
      (if map_plan_status e.status = some "canceled" then
        apply_base (sub_event_target u e) (some "canceled")
      else
        apply_premium (sub_event_target u e)
          (some (py_or (map_plan_status e.status) "active"))
          (dt_from_unix e.current_period_end)) := by
    simp only [handle_event_user]
    rcases htype with ht | ht <;> rw [ht] <;>
      rw [if_neg (by decide), if_pos (by decide)]
  refine ⟨?_, ?_, ?_, ?_⟩
  · unfold handle_event
    rw [hfind]
  · intro hmc
    rw [het, if_pos hmc]
    exact ⟨rfl, rfl, rfl, rfl⟩
  · intro hmc
    rw [het, if_neg hmc]
    refine ⟨rfl, ?_, rfl⟩
    show some (py_or (some (py_or (map_plan_status e.status) "active")) _) = _
    rw [py_or_some_ne_empty (py_or_map_plan_status_ne_empty e.status)]
  · intro s hs
    refine ⟨?_, ?_, ?_, ?_⟩
    · intro h
      simp only [map_plan_status]
      rw [if_neg hs]
      rcases h with h | h <;> rw [h] <;> decide
    · intro h
      simp only [map_plan_status]
      rw [if_neg hs]
      rcases h with h | h | h | h <;> rw [h] <;> decide
    · intro h
      simp only [map_plan_status]
      rw [if_neg hs]
      rw [h]
      decide
    · intro h
      simp only [map_plan_status]
      rw [if_neg hs, if_neg (fun hc => h (by tauto)), if_neg (fun hc => h (by tauto)),
        if_neg (fun hc => h (by tauto))]

/-- Counterexample to C4 as frozen: an update event carrying an empty status
string — anything else in the mapping of the claim, hence expected
past_due — instead leaves the user premium with status active. -/
theorem subscription_update_empty_status_counterexample :
    handle_event [cexUser] cexEvent
      = [⟨7, some "premium", some "active", some 999, some "PREMIUM", some "cus_7",
          some "sub_7"⟩] ∧
    map_plan_status (some "") = none ∧
    (some "active" : Option String) ≠ some "past_due" := by
  decide

/-- Witness for C4 (amended): a canceled update downgrades a concrete user,
and a trialing update makes them premium/active with the renewal date of
the event. -/
theorem subscription_update_reconciliation_witness :
    ((handle_event_user cexUser
        ⟨some "customer.subscription.updated", some "cus_7", none, none, none,
          some "sub_7", some "canceled", some 999⟩).plan = some "base" ∧
      (handle_event_user cexUser
        ⟨some "customer.subscription.updated", some "cus_7", none, none, none,
          some "sub_7", some "canceled", some 999⟩).plan_status = some "canceled" ∧
      (handle_event_user cexUser
        ⟨some "customer.subscription.updated", some "cus_7", none, none, none,
          some "sub_7", some "canceled", some 999⟩).plan_renews_at = none ∧
      (handle_event_user cexUser
        ⟨some "customer.subscription.updated", some "cus_7", none, none, none,
          some "sub_7", some "canceled", some 999⟩).stripe_subscription_id = none) ∧
    ((handle_event_user cexUser
        ⟨some "customer.subscription.created", some "cus_7", none, none, none,
          some "sub_7", some "trialing", some 888⟩).plan = some "premium" ∧
      (handle_event_user cexUser
        ⟨some "customer.subscription.created", some "cus_7", none, none, none,
          some "sub_7", some "trialing", some 888⟩).plan_status
        = some (py_or (map_plan_status (some "trialing")) "active") ∧
      (handle_event_user cexUser
        ⟨some "customer.subscription.created", some "cus_7", none, none, none,
          some "sub_7", some "trialing", some 888⟩).plan_renews_at
        = dt_from_unix (some 888)) := by
  constructor
  · exact (subscription_update_reconciliation [cexUser]
      ⟨some "customer.subscription.updated", some "cus_7", none, none, none,
        some "sub_7", some "canceled", some 999⟩ cexUser
      (Or.inr (by decide)) (by decide)).2.1 (by decide)
  · exact (subscription_update_reconciliation [cexUser]
      ⟨some "customer.subscription.created", some "cus_7", none, none, none,
        some "sub_7", some "trialing", some 888⟩ cexUser
      (Or.inl (by decide)) (by decide)).2.2.1 (by decide)

theorem verify_eval (mac : String → String → String) (secret payload hd : String) (now : Int)
    (hsec : ¬ secret = "") (hhd : ¬ hd = "") :
    verify_stripe_signature mac secret payload (some hd) now 300 =
      (match (parse_sig_header hd).1 with
      | none => Except.ok false
      | some timestamp =>
        if (parse_sig_header hd).2 = [] then Except.ok false
        else if (300 : Int) < |now - timestamp| then Except.ok false
        else Except.ok ((parse_sig_header hd).2.any
            (fun s => mac secret (toString timestamp ++ "." ++ payload) == s))) := by
  unfold verify_stripe_signature
  rw [if_neg hsec, if_neg (by simp [py_truthy, hhd]), py_or_some_ne_empty hhd]

/-- C10: with a configured secret, verification accepts exactly when the
header parses to a timestamp within 300 seconds of now and one of the
provided v1 signatures equals the MAC of the timestamp-dot-payload string;
in particular a stale timestamp is rejected even when the MAC matches. -/
theorem verify_stripe_signature_accept_iff (mac : String → String → String)
    (secret payload hd : String) (now : Int) (hsec : ¬ secret = "") :
    (verify_stripe_signature mac secret payload (some hd) now 300 = Except.ok true ↔
      ∃ t, (parse_sig_header hd).1 = some t ∧ |now - t| ≤ 300 ∧
        mac secret (toString t ++ "." ++ payload) ∈ (parse_sig_header hd).2) ∧
    (∀ t, (parse_sig_header hd).1 = some t → 300 < |now - t| →
      verify_stripe_signature mac secret payload (some hd) now 300 = Except.ok false) := by
  by_cases hhd : hd = ""
  · subst hhd
    have hz : verify_stripe_signature mac secret payload (some "") now 300
        = Except.ok false := by
      unfold verify_stripe_signature
      rw [if_neg hsec, if_pos (by decide)]
    constructor
    · rw [hz]
      refine iff_of_false (by simp) ?_
      rintro ⟨t, ht, _⟩
      rw [(by decide : (parse_sig_header "").1 = (none : Option Int))] at ht
      exact Option.noConfusion ht
    · intro t ht _
      rw [(by decide : (parse_sig_header "").1 = (none : Option Int))] at ht
      exact absurd ht (by simp)
  · have hev := verify_eval mac secret payload hd now hsec hhd
    constructor
    · rw [hev]
      split
      · rename_i heq
        refine iff_of_false (by simp) ?_
        rintro ⟨t, ht, _⟩
        rw [heq] at ht
        exact Option.noConfusion ht
      · rename_i t0 heq
        by_cases hsig : (parse_sig_header hd).2 = []
        · rw [if_pos hsig]
          refine iff_of_false (by simp) ?_
          rintro ⟨t, ht, _, hmem⟩
          rw [hsig] at hmem
          exact absurd hmem (by simp)
        · rw [if_neg hsig]
          by_cases htol : (300 : Int) < |now - t0|
          · rw [if_pos htol]
            refine iff_of_false (by simp) ?_
            rintro ⟨t, ht, hle, _⟩
            rw [heq] at ht
            obtain rfl := Option.some.inj ht
            exact absurd hle (not_le.mpr htol)
          · rw [if_neg htol]
            constructor
            · intro hok
              have hany := Except.ok.inj hok
              rw [List.any_eq_true] at hany
              obtain ⟨x, hx, hbeq⟩ := hany
              refine ⟨t0, heq, not_lt.mp htol, ?_⟩
              rw [beq_iff_eq.mp hbeq]
              exact hx
            · rintro ⟨t, ht, _, hmem⟩
              rw [heq] at ht
              obtain rfl := Option.some.inj ht
              refine congrArg Except.ok ?_
              rw [List.any_eq_true]
              exact ⟨_, hmem, beq_self_eq_true _⟩
    · intro t ht htol
      rw [hev]
      split
      · rfl
      · rename_i t0 heq
        rw [heq] at ht
        obtain rfl := Option.some.inj ht
        by_cases hsig : (parse_sig_header hd).2 = []
        · rw [if_pos hsig]
        · rw [if_neg hsig, if_pos htol]

/-- Witness for C10: a fresh timestamp with a matching MAC is accepted, and
the same header twenty minutes later is rejected despite the matching MAC. -/
theorem verify_stripe_signature_accept_iff_witness :
    verify_stripe_signature macW "sek" "body" (some "t=100,v1=sek.100.body") 150 300
      = Except.ok true ∧
    verify_stripe_signature macW "sek" "body" (some "t=100,v1=sek.100.body") 1300 300
      = Except.ok false := by
  constructor
  · exact (verify_stripe_signature_accept_iff macW "sek" "body" "t=100,v1=sek.100.body" 150
      (by decide)).1.mpr ⟨100, by decide, by decide, by decide⟩
  · exact (verify_stripe_signature_accept_iff macW "sek" "body" "t=100,v1=sek.100.body" 1300
      (by decide)).2 100 (by decide) (by decide)

end Cullen
